import Mathlib

/-!
Shallow embedding of the SkilLink client pages (BookingPage, SkillsPage,
SearchPage, ProjectsPage, DashboardPage, HomePage).

Conventions of the embedding:
* pure view logic is translated to Lean functions, keeping the source's
  names and branch structure;
* a network request made by a handler is modelled by an explicit
  `Except String _` argument carrying the request's outcome, and a
  Boolean recording whether the handler issued the request at all;
* the JavaScript `Date` value obtained from `new Date(date + "T" + time)`
  is modelled by its numeric time value (an `Int` field `dateTime`), so
  the `<` and `>` comparisons on `Date` objects become comparisons on
  `Int`; the wall clock `new Date()` is passed explicitly as `now`;
* JavaScript strings are modelled by `String` (with `List Char` used for
  the character-level operations `split`, `trim`).
-/

/-- JavaScript whitespace for `String.prototype.trim`, restricted to the
ASCII white space characters (space, tab, line feed, carriage return,
vertical tab, form feed). -/
def isJsWhitespace (c : Char) : Bool :=
  c = ' ' || c = '\t' || c = '\n' || c = '\r' || c = '\x0b' || c = '\x0c'

/-- JavaScript `str.split(sep)` for a one-character separator, on char
lists: `[]` splits to `[[]]`, separators at the ends produce empty pieces,
exactly as in JavaScript. -/
def splitOnChar (sep : Char) : List Char → List (List Char)
  | [] => [[]]
  | c :: cs =>
    if c = sep then [] :: splitOnChar sep cs
    else
      match splitOnChar sep cs with
      | [] => [[c]]
      | p :: ps => (c :: p) :: ps

/-- JavaScript `str.trim()` on char lists: drop leading and trailing
whitespace. -/
def trimChars (l : List Char) : List Char :=
  ((l.dropWhile isJsWhitespace).reverse.dropWhile isJsWhitespace).reverse

/-- JavaScript `str.trim()` on strings. -/
def trimString (s : String) : String :=
  String.mk (trimChars s.data)

lemma head?_dropWhile_not (p : Char → Bool) (l : List Char) (c : Char)
    (h : (l.dropWhile p).head? = some c) : p c = false := by
  induction l with
  | nil => simp [List.dropWhile] at h
  | cons a t ih =>
    rw [List.dropWhile_cons] at h
    by_cases hp : p a
    · rw [if_pos hp] at h
      exact ih h
    · rw [if_neg hp] at h
      simp only [List.head?_cons, Option.some.injEq] at h
      rw [← h]
      exact Bool.not_eq_true _ ▸ hp

lemma trimChars_getLast?_not (l : List Char) (c : Char)
    (h : (trimChars l).getLast? = some c) : isJsWhitespace c = false := by
  unfold trimChars at h
  rw [List.getLast?_reverse] at h
  exact head?_dropWhile_not _ _ _ h

lemma trimChars_head?_not (l : List Char) (c : Char)
    (h : (trimChars l).head? = some c) : isJsWhitespace c = false := by
  unfold trimChars at h
  rw [List.head?_reverse] at h
  obtain ⟨r, hr⟩ :=
    List.dropWhile_suffix (l := (l.dropWhile isJsWhitespace).reverse) isJsWhitespace
  have hrev : ((l.dropWhile isJsWhitespace).reverse).getLast? = some c := by
    rw [← hr, List.getLast?_append, h]
    rfl
  rw [List.getLast?_reverse] at hrev
  exact head?_dropWhile_not _ _ _ hrev

lemma trimChars_eq_nil (l : List Char)
    (h : ∀ c ∈ l, isJsWhitespace c = true) : trimChars l = [] := by
  unfold trimChars
  rw [List.dropWhile_eq_nil_iff.mpr h]
  rfl

lemma splitOnChar_ne_nil (sep : Char) (s : List Char) : splitOnChar sep s ≠ [] := by
  induction s with
  | nil => simp [splitOnChar]
  | cons a t ih =>
    simp only [splitOnChar]
    split
    · simp
    · split <;> simp

lemma mem_of_mem_splitOnChar (sep : Char) (s : List Char) (c : Char) :
    ∀ piece ∈ splitOnChar sep s, c ∈ piece → c ∈ s := by
  induction s with
  | nil =>
    intro piece hp hc
    simp only [splitOnChar, List.mem_singleton] at hp
    subst hp
    simp at hc
  | cons a t ih =>
    intro piece hp hc
    simp only [splitOnChar] at hp
    by_cases ha : a = sep
    · rw [if_pos ha] at hp
      rcases List.mem_cons.mp hp with h | h
      · subst h
        simp at hc
      · exact List.mem_cons_of_mem a (ih piece h hc)
    · rw [if_neg ha] at hp
      rcases hsp : splitOnChar sep t with _ | ⟨p, ps⟩
      · exact absurd hsp (splitOnChar_ne_nil sep t)
      · rw [hsp] at hp
        rcases List.mem_cons.mp hp with h | h
        · subst h
          rcases List.mem_cons.mp hc with h' | h'
          · subst h'
            exact List.mem_cons_self _ _
          · refine List.mem_cons_of_mem a (ih p ?_ h')
            rw [hsp]
            exact List.mem_cons_self p ps
        · refine List.mem_cons_of_mem a (ih piece ?_ hc)
          rw [hsp]
          exact List.mem_cons_of_mem p h

/-- A booking record as consumed by BookingPage and DashboardPage:
`dateTime` models the time value of `new Date(date + "T" + time)`. -/
structure Booking where
  id : Nat
  status : String
  dateTime : Int
deriving DecidableEq

namespace BookingPage

/-- BookingPage.filterBookings (BookingPage.jsx lines 35-55): the filter
tab key selects a predicate over the booking list; any key other than the
four named ones (in particular "all") leaves the list unchanged. The wall
clock is the explicit parameter `now`. -/
def filterBookings (filter : String) (bookings : List Booking) (now : Int) :
    List Booking :=
  if filter = "upcoming" then
    bookings.filter fun b =>
      (b.status == "confirmed" || b.status == "pending") && decide (b.dateTime > now)
  else if filter = "past" then
    bookings.filter fun b =>
      b.status == "completed" || decide (b.dateTime < now)
  else if filter = "pending" then
    bookings.filter fun b => b.status == "pending"
  else if filter = "confirmed" then
    bookings.filter fun b => b.status == "confirmed"
  else
    bookings

/-- BookingPage.getStatusColor (BookingPage.jsx lines 88-96): object
lookup with the `|| "status-pending"` fallback. -/
def getStatusColor (status : String) : String :=
  if status = "pending" then "status-pending"
  else if status = "confirmed" then "status-confirmed"
  else if status = "completed" then "status-completed"
  else if status = "cancelled" then "status-cancelled"
  else "status-pending"

/-- The five tab counts of the `filterCounts` object literal
(BookingPage.jsx lines 108-120), transcribed with its own copies of the
filter predicates, independent of `filterBookings`. -/
structure FilterCounts where
  all : Nat
  upcoming : Nat
  past : Nat
  pending : Nat
  confirmed : Nat

/-- BookingPage.filterCounts (BookingPage.jsx lines 108-120). -/
def filterCounts (bookings : List Booking) (now : Int) : FilterCounts where
  all := bookings.length
  upcoming := (bookings.filter fun b =>
    (b.status == "confirmed" || b.status == "pending") && decide (b.dateTime > now)).length
  past := (bookings.filter fun b =>
    b.status == "completed" || decide (b.dateTime < now)).length
  pending := (bookings.filter fun b => b.status == "pending").length
  confirmed := (bookings.filter fun b => b.status == "confirmed").length

lemma filterBookings_upcoming (l : List Booking) (now : Int) :
    filterBookings "upcoming" l now =
      l.filter fun b =>
        (b.status == "confirmed" || b.status == "pending") && decide (b.dateTime > now) :=
  rfl

lemma filterBookings_past (l : List Booking) (now : Int) :
    filterBookings "past" l now =
      l.filter fun b => b.status == "completed" || decide (b.dateTime < now) :=
  rfl

lemma filterBookings_pending (l : List Booking) (now : Int) :
    filterBookings "pending" l now = l.filter fun b => b.status == "pending" :=
  rfl

lemma filterBookings_confirmed (l : List Booking) (now : Int) :
    filterBookings "confirmed" l now = l.filter fun b => b.status == "confirmed" :=
  rfl

lemma filterBookings_all (l : List Booking) (now : Int) :
    filterBookings "all" l now = l :=
  rfl

lemma mem_filterBookings_upcoming (l : List Booking) (now : Int) (b : Booking) :
    b ∈ filterBookings "upcoming" l now ↔
      b ∈ l ∧ (b.status = "confirmed" ∨ b.status = "pending") ∧ now < b.dateTime := by
  rw [filterBookings_upcoming]
  simp [List.mem_filter, and_assoc]

lemma mem_filterBookings_past (l : List Booking) (now : Int) (b : Booking) :
    b ∈ filterBookings "past" l now ↔
      b ∈ l ∧ (b.status = "completed" ∨ b.dateTime < now) := by
  rw [filterBookings_past]
  simp [List.mem_filter]

end BookingPage

/-- C1: for every booking list and a fixed current time, filterBookings
with filter "upcoming" keeps exactly the bookings whose status is
"confirmed" or "pending" and whose combined date-time is strictly after
the current time; with "past" exactly those whose status is "completed"
or whose combined date-time is strictly before the current time; and
with "all" it returns the list unchanged. -/
theorem C1_filterBookings_upcoming_past_all
    (l : List Booking) (now : Int) (b : Booking) :
    (b ∈ BookingPage.filterBookings "upcoming" l now ↔
      b ∈ l ∧ (b.status = "confirmed" ∨ b.status = "pending") ∧ now < b.dateTime) ∧
    (b ∈ BookingPage.filterBookings "past" l now ↔
      b ∈ l ∧ (b.status = "completed" ∨ b.dateTime < now)) ∧
    BookingPage.filterBookings "all" l now = l :=
  ⟨BookingPage.mem_filterBookings_upcoming l now b,
   BookingPage.mem_filterBookings_past l now b,
   BookingPage.filterBookings_all l now⟩

/-- A concrete booking used by the witnesses: cancelled, with a combined
date-time strictly after the witness clock 0. -/
def cancelledFutureBooking : Booking where
  id := 1
  status := "cancelled"
  dateTime := 5

/-- C2: filterBookings with filter "pending" keeps exactly the bookings
whose status string equals "pending", with "confirmed" exactly those whose
status equals "confirmed"; and any status string other than "pending",
"confirmed", "completed", "cancelled" falls through getStatusColor to the
pending default class. -/
theorem C2_filterBookings_status_and_getStatusColor_default
    (l : List Booking) (now : Int) (b : Booking) (s : String)
    (h1 : s ≠ "pending") (h2 : s ≠ "confirmed")
    (h3 : s ≠ "completed") (h4 : s ≠ "cancelled") :
    (b ∈ BookingPage.filterBookings "pending" l now ↔
      b ∈ l ∧ b.status = "pending") ∧
    (b ∈ BookingPage.filterBookings "confirmed" l now ↔
      b ∈ l ∧ b.status = "confirmed") ∧
    BookingPage.getStatusColor s = "status-pending" := by
  refine ⟨?_, ?_, ?_⟩
  · rw [BookingPage.filterBookings_pending]
    simp [List.mem_filter]
  · rw [BookingPage.filterBookings_confirmed]
    simp [List.mem_filter]
  · simp only [BookingPage.getStatusColor, if_neg h1, if_neg h2, if_neg h3, if_neg h4]

/-- C2 witness: the theorem applied at a concrete unknown status string
(and a trivial list and booking). -/
theorem C2_witness :
    (cancelledFutureBooking ∈
        BookingPage.filterBookings "pending" [] 0 ↔
      cancelledFutureBooking ∈ ([] : List Booking) ∧
        cancelledFutureBooking.status = "pending") ∧
    (cancelledFutureBooking ∈
        BookingPage.filterBookings "confirmed" [] 0 ↔
      cancelledFutureBooking ∈ ([] : List Booking) ∧
        cancelledFutureBooking.status = "confirmed") ∧
    BookingPage.getStatusColor "archived" = "status-pending" :=
  C2_filterBookings_status_and_getStatusColor_default [] 0 cancelledFutureBooking
    "archived" (by decide) (by decide) (by decide) (by decide)

/-- C3: every tab count of the filterCounts object equals the length of
the list filterBookings produces for the same key, at one common current
time: the two independently transcribed copies of each predicate agree. -/
theorem C3_filterCounts_agree_with_filterBookings
    (l : List Booking) (now : Int) :
    (BookingPage.filterCounts l now).all =
      (BookingPage.filterBookings "all" l now).length ∧
    (BookingPage.filterCounts l now).upcoming =
      (BookingPage.filterBookings "upcoming" l now).length ∧
    (BookingPage.filterCounts l now).past =
      (BookingPage.filterBookings "past" l now).length ∧
    (BookingPage.filterCounts l now).pending =
      (BookingPage.filterBookings "pending" l now).length ∧
    (BookingPage.filterCounts l now).confirmed =
      (BookingPage.filterBookings "confirmed" l now).length :=
  ⟨rfl, rfl, rfl, rfl, rfl⟩

/-- C8: the "upcoming" and "past" filter results are disjoint for a fixed
current time, and they do not cover the list: a cancelled booking with a
future date-time is kept by the "all" filter but by neither "upcoming"
nor "past". -/
theorem C8_upcoming_past_disjoint_not_covering
    (l : List Booking) (now : Int) (b : Booking)
    (hmem : b ∈ l) (hstat : b.status = "cancelled") (hfut : now < b.dateTime) :
    (∀ b' : Booking,
      ¬(b' ∈ BookingPage.filterBookings "upcoming" l now ∧
        b' ∈ BookingPage.filterBookings "past" l now)) ∧
    b ∈ BookingPage.filterBookings "all" l now ∧
    b ∉ BookingPage.filterBookings "upcoming" l now ∧
    b ∉ BookingPage.filterBookings "past" l now := by
  refine ⟨?_, ?_, ?_, ?_⟩
  · rintro b' ⟨hu, hp⟩
    rw [BookingPage.mem_filterBookings_upcoming] at hu
    rw [BookingPage.mem_filterBookings_past] at hp
    rcases hu with ⟨-, hstat', hlt⟩
    rcases hp with ⟨-, hstat'' | hlt'⟩
    · rcases hstat' with h | h <;> rw [h] at hstat'' <;> exact absurd hstat'' (by decide)
    · exact absurd hlt (not_lt.mpr hlt'.le)
  · rw [BookingPage.filterBookings_all]
    exact hmem
  · rw [BookingPage.mem_filterBookings_upcoming]
    rintro ⟨-, hstat' | hstat', -⟩ <;> rw [hstat] at hstat' <;> exact absurd hstat' (by decide)
  · rw [BookingPage.mem_filterBookings_past]
    rintro ⟨-, hstat' | hlt'⟩
    · rw [hstat] at hstat'
      exact absurd hstat' (by decide)
    · exact absurd hfut (not_lt.mpr hlt'.le)

/-- The create-project form state of ProjectsPage (`newProject`): the
skills field is one comma-separated string. -/
structure ProjectForm where
  title : String
  description : String
  skills : String
  location : String

/-- The payload sent to `createProject`: skills have become a list. -/
structure ProjectPayload where
  title : String
  description : String
  skills : List String
  location : String

namespace ProjectsPage

/-- The skills expression of handleCreateProject (ProjectsPage.jsx line
50): `newProject.skills.split(",").map(s => s.trim()).filter(Boolean)`;
`filter(Boolean)` keeps exactly the non-empty strings. -/
def parseSkills (s : String) : List String :=
  (((splitOnChar ',' s.data).map String.mk).map trimString).filter fun p => !p.isEmpty

/-- The `projectData` object built by handleCreateProject
(ProjectsPage.jsx lines 48-51) and passed to `createProject`. -/
def projectData (f : ProjectForm) : ProjectPayload where
  title := f.title
  description := f.description
  skills := parseSkills f.skills
  location := f.location

end ProjectsPage

/-- C4: handleCreateProject sends the skills list obtained by splitting
the input on commas, trimming each piece and dropping empty pieces; hence
no sent element is empty or carries leading or trailing whitespace, and a
whitespace-only (in particular empty) input yields the empty list. -/
theorem C4_projectData_skills_split_trim_filter
    (f g : ProjectForm) (p : String)
    (hws : ∀ c ∈ g.skills.data, isJsWhitespace c = true)
    (hp : p ∈ (ProjectsPage.projectData f).skills) :
    (ProjectsPage.projectData f).skills = ProjectsPage.parseSkills f.skills ∧
    ProjectsPage.parseSkills g.skills = [] ∧
    p ≠ "" ∧
    (∀ c, p.data.head? = some c → isJsWhitespace c = false) ∧
    (∀ c, p.data.getLast? = some c → isJsWhitespace c = false) := by
  refine ⟨rfl, ?_, ?_⟩
  · apply List.filter_eq_nil_iff.mpr
    intro a ha
    rcases List.mem_map.mp ha with ⟨q, hq, hqa⟩
    rcases List.mem_map.mp hq with ⟨piece, hpiece, hpq⟩
    subst hpq
    subst hqa
    have hz : trimChars piece = [] :=
      trimChars_eq_nil piece fun c hc =>
        hws c (mem_of_mem_splitOnChar ',' g.skills.data c piece hpiece hc)
    have hz' : trimString (String.mk piece) = "" := by
      unfold trimString
      rw [show (String.mk piece).data = piece from rfl, hz]
    rw [hz']
    decide
  · rcases List.mem_filter.mp hp with ⟨hmem, hne⟩
    rcases List.mem_map.mp hmem with ⟨q, hq, hpq⟩
    rcases List.mem_map.mp hq with ⟨piece, hpiece, hqp⟩
    subst hqp
    subst hpq
    refine ⟨?_, ?_, ?_⟩
    · intro h0
      rw [h0] at hne
      exact absurd hne (by decide)
    · intro c hc
      exact trimChars_head?_not piece c hc
    · intro c hc
      exact trimChars_getLast?_not piece c hc

/-- C4 witness: a concrete skills string with surrounding whitespace and
an empty piece, and a concrete whitespace-only skills string. -/
theorem C4_witness :
    (ProjectsPage.projectData
        ⟨"Weather App", "Build one", " React, , Node.js ", "Remote"⟩).skills =
      ProjectsPage.parseSkills " React, , Node.js " ∧
    ProjectsPage.parseSkills " \t " = [] ∧
    "React" ≠ "" ∧
    (∀ c, "React".data.head? = some c → isJsWhitespace c = false) ∧
    (∀ c, "React".data.getLast? = some c → isJsWhitespace c = false) :=
  C4_projectData_skills_split_trim_filter
    ⟨"Weather App", "Build one", " React, , Node.js ", "Remote"⟩
    ⟨"T", "D", " \t ", ""⟩ "React" (by decide) (by decide)

/-- The add-skill form state of SkillsPage (`newSkill`). -/
structure NewSkill where
  skillName : String
  type : String
  proficiency : Nat

namespace SkillsPage

/-- Outcome of one run of a SkillsPage submit handler: the error and
success messages, whether the backend request `addSkill` was issued, and
the displayed skills state (of an abstract shape `σ`) afterwards. -/
structure AddSkillOutcome (σ : Type) where
  error : String
  success : String
  requestSent : Bool
  skills : σ

/-- SkillsPage.handleAddSkill (SkillsPage source lines 44-72): an empty
trimmed skill name sets the error and returns before any request;
otherwise `addSkill` is issued and, on success, the success message is
set and the skills are refetched (`backend` carries the combined outcome
of `addSkill` and the refetch), while a thrown error becomes the error
message and leaves the displayed skills unchanged. -/
def handleAddSkill {σ : Type} (form : NewSkill) (skills : σ)
    (prevSuccess : String) (backend : Except String σ) : AddSkillOutcome σ :=
  if (trimChars form.skillName.data).isEmpty then
    { error := "Skill name is required", success := prevSuccess,
      requestSent := false, skills := skills }
  else
    match backend with
    | .ok fetched =>
      { error := "", success := "Skill added successfully! +2 credits earned",
        requestSent := true, skills := fetched }
    | .error e =>
      { error := e, success := "", requestSent := true, skills := skills }

end SkillsPage

namespace SearchPage

/-- Outcome of one run of SearchPage.handleSearch over results of an
abstract element type `α`. -/
structure SearchOutcome (α : Type) where
  error : String
  requestSent : Bool
  results : List α
  searched : Bool

/-- SearchPage.handleSearch (SearchPage.jsx lines 59-96): an empty
trimmed query sets the error and returns before any request; otherwise a
search request is issued (the nearby endpoint or `searchUsers`, depending
on the location state — both are backend requests, merged into
`backend`), `searched` becomes true, and the results are replaced on
success while a failure becomes the error message. -/
def handleSearch {α : Type} (searchQuery : String) (results : List α)
    (searched : Bool) (backend : Except String (List α)) : SearchOutcome α :=
  if (trimChars searchQuery.data).isEmpty then
    { error := "Please enter a skill to search", requestSent := false,
      results := results, searched := searched }
  else
    match backend with
    | .ok fetched =>
      { error := "", requestSent := true, results := fetched, searched := true }
    | .error e =>
      { error := e, requestSent := true, results := results, searched := true }

end SearchPage

/-- C5: with an empty or whitespace-only required field, each submit
handler sets its specific error message and returns without issuing any
backend request, leaving the displayed list state unchanged:
handleAddSkill sets "Skill name is required" and does not call addSkill,
and handleSearch sets "Please enter a skill to search" and does not call
the search API. -/
theorem C5_blank_field_guards {σ α : Type}
    (form : NewSkill) (skills : σ) (prevSuccess : String)
    (b1 : Except String σ)
    (q : String) (results : List α) (searched : Bool)
    (b2 : Except String (List α))
    (h1 : trimChars form.skillName.data = [])
    (h2 : trimChars q.data = []) :
    SkillsPage.handleAddSkill form skills prevSuccess b1 =
      { error := "Skill name is required", success := prevSuccess,
        requestSent := false, skills := skills } ∧
    SearchPage.handleSearch q results searched b2 =
      { error := "Please enter a skill to search", requestSent := false,
        results := results, searched := searched } := by
  constructor
  · unfold SkillsPage.handleAddSkill
    rw [h1]
    rfl
  · unfold SearchPage.handleSearch
    rw [h2]
    rfl

/-- C5 witness: a whitespace-only skill name and an empty search query. -/
theorem C5_witness :
    SkillsPage.handleAddSkill ⟨"   ", "offering", 3⟩ ([] : List String) "" (.ok []) =
      { error := "Skill name is required", success := "",
        requestSent := false, skills := ([] : List String) } ∧
    SearchPage.handleSearch "" ([] : List Nat) false (.ok [7]) =
      { error := "Please enter a skill to search", requestSent := false,
        results := ([] : List Nat), searched := false } :=
  C5_blank_field_guards ⟨"   ", "offering", 3⟩ [] "" (.ok []) "" [] false (.ok [7])
    (by decide) (by decide)

namespace DashboardPage

/-- The credits payload of `getCredits`; the per-request fallback is
`{ balance: 0 }`. -/
structure CreditsData where
  balance : Int

/-- The `stats` state DashboardPage stores after fetchDashboardData
(reputation data of an abstract shape `ρ`; `none` models `null`). -/
structure DashboardStats (ρ : Type) where
  bookings : List Booking
  completedSessions : Nat
  credits : Int
  reputation : Option ρ
  loading : Bool

/-- DashboardPage.fetchDashboardData (DashboardPage source lines
331-355): the three requests are resolved by a parallel `Promise.all`,
each with its own `.catch` fallback, so each outcome is an independent
argument; the JavaScript parallel scheduling itself has no observable
effect beyond this independence. -/
def fetchDashboardData (ρ : Type) (now : Int)
    (bookingsRes : Except String (List Booking))
    (creditsRes : Except String CreditsData)
    (repRes : Except String (Option ρ)) : DashboardStats ρ :=
  let bookingsData := match bookingsRes with
    | .ok d => d
    | .error _ => []
  let creditsData := match creditsRes with
    | .ok d => d
    | .error _ => { balance := 0 }
  let reputationData := match repRes with
    | .ok d => d
    | .error _ => none
  let completedSessions :=
    (bookingsData.filter fun b => b.status == "completed").length
  let upcomingSessions :=
    bookingsData.filter fun b => b.status == "confirmed" && decide (b.dateTime > now)
  { bookings := upcomingSessions, completedSessions := completedSessions,
    credits := creditsData.balance, reputation := reputationData,
    loading := false }

end DashboardPage

/-- C6: fetchDashboardData treats its three requests independently (a
failed request is replaced by its per-request default — `[]`, balance 0,
`null` — with the same stats as that default, leaving the other two
results untouched, and each stored component depends only on its own
request), the loading flag ends false in every case, completedSessions
counts exactly the fetched bookings with status "completed", and the
stored upcoming list holds exactly the fetched confirmed bookings whose
date-time is after the current time. -/
theorem C6_fetchDashboardData_independent_defaults (ρ : Type) (now : Int)
    (rb rb' : Except String (List Booking))
    (rc rc' : Except String DashboardPage.CreditsData)
    (rr rr' : Except String (Option ρ))
    (e : String) (l : List Booking) (b : Booking) :
    (DashboardPage.fetchDashboardData ρ now rb rc rr).loading = false ∧
    DashboardPage.fetchDashboardData ρ now (.error e) rc rr =
      DashboardPage.fetchDashboardData ρ now (.ok []) rc rr ∧
    DashboardPage.fetchDashboardData ρ now rb (.error e) rr =
      DashboardPage.fetchDashboardData ρ now rb (.ok ⟨0⟩) rr ∧
    DashboardPage.fetchDashboardData ρ now rb rc (.error e) =
      DashboardPage.fetchDashboardData ρ now rb rc (.ok none) ∧
    (DashboardPage.fetchDashboardData ρ now (.ok l) rc rr).completedSessions =
      (l.filter fun x => x.status == "completed").length ∧
    (b ∈ (DashboardPage.fetchDashboardData ρ now (.ok l) rc rr).bookings ↔
      b ∈ l ∧ b.status = "confirmed" ∧ now < b.dateTime) ∧
    (DashboardPage.fetchDashboardData ρ now rb rc rr).credits =
      (DashboardPage.fetchDashboardData ρ now rb' rc rr').credits ∧
    (DashboardPage.fetchDashboardData ρ now rb rc rr).reputation =
      (DashboardPage.fetchDashboardData ρ now rb' rc' rr).reputation ∧
    (DashboardPage.fetchDashboardData ρ now rb rc rr).bookings =
      (DashboardPage.fetchDashboardData ρ now rb rc' rr').bookings := by
  cases rb <;> cases rc <;> cases rr <;> cases rb' <;> cases rc' <;> cases rr' <;>
    refine ⟨rfl, rfl, rfl, rfl, rfl, ?_, rfl, rfl, rfl⟩ <;>
    simp [DashboardPage.fetchDashboardData, List.mem_filter, and_assoc]

/-- One observable action of a page component's mount (`useEffect(...,
[])`) body. Modelled from the spec: the imported service wrappers
(getBookings, getSkills, getProjects, getCredits, getUserReputation,
searchUsers, api.put) are the HTTP requests to the REST backend ("thin
glue over a REST API", "fetch-on-mount"); their module sources are not
part of this repository's files. -/
inductive MountAction where
  | httpRequest (name : String)
  | registerObserver
  | requestGeolocation
deriving DecidableEq

/-- Whether a mount action is an HTTP request to the backend. -/
def MountAction.isHttpRequest : MountAction → Bool
  | .httpRequest _ => true
  | _ => false

/-- Whether a mount effect issues at least one HTTP request. -/
def issuesHttpRequest (effect : List MountAction) : Bool :=
  effect.any MountAction.isHttpRequest

namespace BookingPage

/-- BookingPage.jsx lines 15-17: the mount effect calls fetchBookings,
which issues getBookings. -/
def mountEffect : List MountAction := [.httpRequest "getBookings"]

end BookingPage

namespace SkillsPage

/-- SkillsPage source lines 23-25: the mount effect calls fetchSkills,
which issues getSkills. -/
def mountEffect : List MountAction := [.httpRequest "getSkills"]

end SkillsPage

namespace ProjectsPage

/-- ProjectsPage.jsx lines 20-22: the mount effect calls fetchProjects,
which issues getProjects. -/
def mountEffect : List MountAction := [.httpRequest "getProjects"]

end ProjectsPage

namespace DashboardPage

/-- DashboardPage source lines 327-329: the mount effect calls
fetchDashboardData, which issues getBookings, getCredits and
getUserReputation. -/
def mountEffect : List MountAction :=
  [.httpRequest "getBookings", .httpRequest "getCredits",
   .httpRequest "getUserReputation"]

end DashboardPage

namespace SearchPage

/-- SearchPage.jsx lines 24-26 and 28-57: the mount effect calls
requestLocation, which asks for geolocation and, only when the position
is granted, issues `api.put("/users/location", ...)`; when geolocation is
unavailable or denied no request is made. -/
def mountEffect (granted : Bool) : List MountAction :=
  .requestGeolocation ::
    (if granted then [.httpRequest "api.put /users/location"] else [])

end SearchPage

namespace HomePage

/-- HomePage.jsx lines 10-30: the mount effect only builds an
IntersectionObserver over the `[data-section]` nodes and registers it; no
service is called. Modelled from the spec: authService.isAuthenticated
(read during render) is part of the local UI state the spec describes,
not one of the backend fetches, and the spec assigns HomePage no data
fetch. -/
def mountEffect : List MountAction := [.registerObserver]

end HomePage

/-- C7 counterexample: HomePage is a page component whose mount issues no
HTTP request — its mount effect only registers an IntersectionObserver —
so not every page component fetches from the backend on mount. -/
theorem C7_counterexample_HomePage_no_fetch :
    issuesHttpRequest HomePage.mountEffect = false := by decide

/-- C7 amended: every page component except HomePage issues at least one
backend HTTP request on mount (SearchPage exactly when geolocation is
granted); HomePage's mount effect only registers an
IntersectionObserver and issues none. -/
theorem C7_amended_mount_requests :
    issuesHttpRequest BookingPage.mountEffect = true ∧
    issuesHttpRequest SkillsPage.mountEffect = true ∧
    issuesHttpRequest ProjectsPage.mountEffect = true ∧
    issuesHttpRequest DashboardPage.mountEffect = true ∧
    (∀ granted, issuesHttpRequest (SearchPage.mountEffect granted) = granted) ∧
    issuesHttpRequest HomePage.mountEffect = false := by
  refine ⟨rfl, rfl, rfl, rfl, ?_, rfl⟩
  intro granted
  cases granted <;> rfl

/-- JavaScript `parseInt` restricted to the inputs formatTime meets, on
char lists: take the leading decimal digits; no leading digit gives NaN
(`none`). Leading whitespace, signs and radix handling do not occur in
the "HH:MM" inputs modelled here. -/
def parseIntChars (l : List Char) : Option Nat :=
  let digits := l.takeWhile Char.isDigit
  if digits.isEmpty then none
  else some (digits.foldl (fun n c => n * 10 + (c.toNat - '0'.toNat)) 0)

namespace BookingPage

/-- BookingPage.formatTime (BookingPage.jsx lines 80-86):
`const [hours, minutes] = time.split(":")`, `parseInt(hours)` (a failed
parse follows JavaScript's NaN arithmetic, where `NaN % 12 || 12` is 12
and `NaN >= 12` is false), `hour >= 12 ? "PM" : "AM"`, and
`hour % 12 || 12` for the displayed hour. A missing minutes component
renders as "undefined", as the template literal would. -/
def formatTime (time : String) : String :=
  let parts := splitOnChar ':' time.data
  let hours : String := String.mk (parts.headD [])
  let minutes : String :=
    match parts.drop 1 with
    | [] => "undefined"
    | m :: _ => String.mk m
  match parseIntChars hours.data with
  | some hour =>
    let ampm := if 12 ≤ hour then "PM" else "AM"
    let displayHour := if hour % 12 = 0 then 12 else hour % 12
    toString displayHour ++ ":" ++ minutes ++ " " ++ ampm
  | none => "12:" ++ minutes ++ " AM"

end BookingPage

namespace DashboardPage

/-- DashboardPage.formatTime (DashboardPage source lines 364-370), a
verbatim copy of BookingPage.formatTime. -/
def formatTime (time : String) : String :=
  let parts := splitOnChar ':' time.data
  let hours : String := String.mk (parts.headD [])
  let minutes : String :=
    match parts.drop 1 with
    | [] => "undefined"
    | m :: _ => String.mk m
  match parseIntChars hours.data with
  | some hour =>
    let ampm := if 12 ≤ hour then "PM" else "AM"
    let displayHour := if hour % 12 = 0 then 12 else hour % 12
    toString displayHour ++ ":" ++ minutes ++ " " ++ ampm
  | none => "12:" ++ minutes ++ " AM"

end DashboardPage

/-- C9: on a time string "HH:MM" with hour between 0 and 23, formatTime
(identical in BookingPage and DashboardPage) displays an hour between 1
and 12, keeps the minutes unchanged, and appends "AM" exactly when the
hour is below 12; hour 0 displays as 12 AM and hour 12 as 12 PM. -/
theorem C9_formatTime_twelve_hour
    (time : String) (hc mc : List Char) (h : Nat)
    (hsplit : splitOnChar ':' time.data = [hc, mc])
    (hparse : parseIntChars hc = some h)
    (hle : h ≤ 23) :
    ∃ d : Nat, 1 ≤ d ∧ d ≤ 12 ∧
      BookingPage.formatTime time =
        toString d ++ ":" ++ String.mk mc ++ " " ++
          (if h < 12 then "AM" else "PM") ∧
      (h = 0 → d = 12) ∧ (h = 12 → d = 12) ∧
      (∀ t, BookingPage.formatTime t = DashboardPage.formatTime t) := by
  refine ⟨if h % 12 = 0 then 12 else h % 12, ?_, ?_, ?_, ?_, ?_, fun t => rfl⟩
  · have := Nat.mod_lt h (y := 12) (by norm_num)
    split <;> omega
  · have := Nat.mod_lt h (y := 12) (by norm_num)
    split <;> omega
  · show BookingPage.formatTime time = _
    unfold BookingPage.formatTime
    rw [hsplit]
    simp only [List.headD, List.drop_succ_cons, List.drop_zero, hparse]
    rcases Nat.lt_or_ge h 12 with hl | hl
    · rw [if_neg (by omega : ¬12 ≤ h), if_pos hl]
    · rw [if_pos hl, if_neg (by omega : ¬h < 12)]
  · intro h0
    simp [h0]
  · intro h12
    simp [h12]

/-- C9 witness: midnight, "00:30", displays as "12:30 AM". -/
theorem C9_witness :
    ∃ d : Nat, 1 ≤ d ∧ d ≤ 12 ∧
      BookingPage.formatTime "00:30" =
        toString d ++ ":" ++ String.mk ['3', '0'] ++ " " ++
          (if 0 < 12 then "AM" else "PM") ∧
      (0 = 0 → d = 12) ∧ (0 = 12 → d = 12) ∧
      (∀ t, BookingPage.formatTime t = DashboardPage.formatTime t) :=
  C9_formatTime_twelve_hour "00:30" ['0', '0'] ['3', '0'] 0
    (by decide) (by decide) (by decide)

/-- One entry handed to the IntersectionObserver callback in HomePage:
whether the observed node is intersecting, and its `data-section` name
(`entry.target.dataset.section`). -/
structure ObserverEntry where
  isIntersecting : Bool
  dataSection : String

namespace HomePage

/-- The IntersectionObserver callback of HomePage (HomePage.jsx lines
16-22): for each intersecting entry, the visibleSections state becomes
`new Set([...prev, entry.target.dataset.section])`; the sequential state
updates are a fold over the entries. -/
def observerCallback (entries : List ObserverEntry) (visible : Finset String) :
    Finset String :=
  entries.foldl
    (fun acc e => if e.isIntersecting then insert e.dataSection acc else acc)
    visible

lemma observerCallback_eq_union (entries : List ObserverEntry)
    (visible : Finset String) :
    observerCallback entries visible =
      visible ∪
        ((entries.filter fun e => e.isIntersecting).map
          fun e => e.dataSection).toFinset := by
  induction entries generalizing visible with
  | nil => simp [observerCallback]
  | cons e t ih =>
    by_cases he : e.isIntersecting
    · have hstep : observerCallback (e :: t) visible =
          observerCallback t (insert e.dataSection visible) := by
        simp [observerCallback, he]
      rw [hstep, ih, List.filter_cons_of_pos he]
      ext x
      simp
    · have hstep : observerCallback (e :: t) visible =
          observerCallback t visible := by
        simp [observerCallback, he]
      rw [hstep, ih, List.filter_cons_of_neg he]

end HomePage

/-- C10: an IntersectionObserver callback invocation in HomePage turns
visibleSections into the union of the previous set with the sections of
the intersecting entries, so the set is monotonically non-decreasing and
a section that has received its animation class keeps it. -/
theorem C10_visibleSections_monotone (entries : List ObserverEntry)
    (visible : Finset String) :
    visible ⊆ HomePage.observerCallback entries visible ∧
    HomePage.observerCallback entries visible =
      visible ∪
        ((entries.filter fun e => e.isIntersecting).map
          fun e => e.dataSection).toFinset := by
  refine ⟨?_, HomePage.observerCallback_eq_union entries visible⟩
  rw [HomePage.observerCallback_eq_union entries visible]
  exact Finset.subset_union_left

/-- C8 witness: the theorem applied to a one-element list holding a
cancelled booking with date-time 5, at current time 0. -/
theorem C8_witness :
    (∀ b' : Booking,
      ¬(b' ∈ BookingPage.filterBookings "upcoming" [cancelledFutureBooking] 0 ∧
        b' ∈ BookingPage.filterBookings "past" [cancelledFutureBooking] 0)) ∧
    cancelledFutureBooking ∈
      BookingPage.filterBookings "all" [cancelledFutureBooking] 0 ∧
    cancelledFutureBooking ∉
      BookingPage.filterBookings "upcoming" [cancelledFutureBooking] 0 ∧
    cancelledFutureBooking ∉
      BookingPage.filterBookings "past" [cancelledFutureBooking] 0 :=
  C8_upcoming_past_disjoint_not_covering [cancelledFutureBooking] 0
    cancelledFutureBooking (by decide) (by decide) (by decide)
